import Mathlib

/-!
Verification of the file reconciliation engine of deploy-node-app.

The embedding below translates the write/merge/rollback core of the
repository into Lean:

* `FS` is a small filesystem model (files with content, directories),
  with paths represented as lists of segments relative to the
  filesystem root (so `path.join(directory, filePath)` becomes list
  append).
* namespace `Util` embeds the util module (src/unnamed/part_000, first
  document): `confirmWriteFile` (the update/force variant that keeps
  the `filesWritten` ledger), `mkdir` (the mkdirp wrapper that keeps
  the `dirsWritten` ledger) and `cleanupWrittenFiles` (the rollback
  executor).  The inquirer prompt is modelled as an oracle: a list of
  pending answers; a prompt with an exhausted oracle blocks.
* `Json` and `merge` embed the lodash `merge` call used by
  src/src/index.js (second document) to overlay properties on a yaml
  template.
* namespace `DNA` embeds `confirmWriteFile` of src/src/index.js (the
  content/templatePath/output/properties variant), instrumented with an
  event trace recording filesystem reads/writes, stdout emissions and
  prompts, so that ordering claims (what happens before an error) can
  be stated.
-/

abbrev FsPath := List String

/-- Filesystem model: a list of files (path and content) and a list of
existing directories.  `fs.existsSync` is `existsPath` (true for files
and directories alike). -/
structure FS where
  files : List (FsPath × String)
  dirs : List FsPath
deriving DecidableEq

def FS.isFile (fs : FS) (p : FsPath) : Bool :=
  fs.files.any (fun fc => fc.1 == p)

def FS.isDir (fs : FS) (p : FsPath) : Bool :=
  fs.dirs.contains p

/-- `fs.existsSync(p)`. -/
def FS.existsPath (fs : FS) (p : FsPath) : Bool :=
  fs.isFile p || fs.isDir p

/-- `fs.readFile(p)`: the content when `p` is a file, otherwise none. -/
def FS.readFile (fs : FS) (p : FsPath) : Option String :=
  (fs.files.find? (fun fc => fc.1 == p)).map (fun fc => fc.2)

/-- `fs.writeFile(p, c)`: create or overwrite the file at `p`. -/
def FS.writeFile (fs : FS) (p : FsPath) (c : String) : FS :=
  { fs with files := (p, c) :: fs.files.filter (fun fc => fc.1 != p) }

/-- `fs.unlinkSync(p)`: delete the file at `p`; throws ENOENT when
there is no such file. -/
def FS.unlink (fs : FS) (p : FsPath) : Except String FS :=
  if fs.isFile p then
    .ok { fs with files := fs.files.filter (fun fc => fc.1 != p) }
  else .error "ENOENT"

/-- `fs.rmdirSync(p)`: remove the directory entry at `p`. -/
def FS.rmdir (fs : FS) (p : FsPath) : FS :=
  { fs with dirs := fs.dirs.filter (fun q => q != p) }

/-- `p` is a direct child of `d` (one segment deeper, extending `d`). -/
def isChild (d p : FsPath) : Bool :=
  decide (p.length = d.length + 1 ∧ p.take d.length = d)

/-- `fs.readdirSync(d).length`: the number of direct children of `d`. -/
def FS.childCount (fs : FS) (d : FsPath) : Nat :=
  (fs.files.filter (fun fc => isChild d fc.1)).length +
    (fs.dirs.filter (fun q => isChild d q)).length

/-- `mkdirp(p)`: create every missing ancestor of `p` (and `p` itself);
returns the first (shallowest) directory that had to be created, or
none when `p` already existed. -/
def FS.mkdirp (fs : FS) (p : FsPath) : FS × Option FsPath :=
  match ((List.range p.length).map (fun i => p.take (i + 1))).filter
      (fun q => !fs.isDir q) with
  | [] => (fs, none)
  | q :: rest => ({ fs with dirs := fs.dirs ++ (q :: rest) }, some q)

/-- The JS dedup idiom `arr.filter((v,i,s) => s.indexOf(v) === i)`:
keep the first occurrence of every element, in order. -/
def dedupKeepFirst (l : List FsPath) : List FsPath :=
  l.foldl (fun acc v => if acc.contains v then acc else acc ++ [v]) []

namespace Util

/-- A resolution of the inquirer expand prompt of `confirmWriteFile`:
Yes (update) / No, dont touch / Show diff. -/
inductive Answer where
  | yes
  | no
  | showDiff
deriving DecidableEq

/-- The way a `confirmWriteFile` call ends: `ret r` is an ordinary
return (`r = none` models the implicit `undefined` return), `blocked`
models a prompt issued with no answer available (the process suspends
forever), `fatal` models `fatal(...)`/an unhandled exception. -/
inductive Outcome where
  | ret (r : Option Bool)
  | blocked
  | fatal
deriving DecidableEq

/-- The options bag passed to the util module entry points. -/
structure Options where
  update : Bool
  force : Bool
  dontPrune : Bool
  directory : FsPath
deriving DecidableEq

/-- The process-wide mutable state of the util module: the filesystem
plus the two write-ledger arrays `filesWritten` and `dirsWritten`. -/
structure WriteState where
  fs : FS
  filesWritten : List FsPath
  dirsWritten : List FsPath
deriving DecidableEq

/-- `if (!options.dontPrune && !fs.existsSync(fullPath))
filesWritten.push(fullPath)`. -/
def pushLedger (fullPath : FsPath) (dontPrune : Bool) (st : WriteState) : WriteState :=
  if !dontPrune && !(st.fs.existsPath fullPath) then
    { st with filesWritten := st.filesWritten ++ [fullPath] }
  else st

/-- The `if (doWrite) { ... }` tail of `confirmWriteFile`: ledger the
path when it does not exist yet (and `dontPrune` is unset), then write.
Writing over an existing directory raises EISDIR, which the catch turns
into `fatal`. -/
def writeStep (fullPath : FsPath) (content : String) (dontPrune : Bool)
    (st : WriteState) (oracle : List Answer) : Outcome × WriteState × List Answer :=
  if (pushLedger fullPath dontPrune st).fs.isDir fullPath then
    (.fatal, pushLedger fullPath dontPrune st, oracle)
  else
    (.ret (some true),
      { pushLedger fullPath dontPrune st with
          fs := (pushLedger fullPath dontPrune st).fs.writeFile fullPath content },
      oracle)

/-- src/unnamed/part_000 lines 52-99: `confirmWriteFile(filePath,
content, options)`.  Returns the JS return value (some true = wrote,
some false = explicit `return false`, none = fell through returning
undefined), the updated process state, and the unconsumed prompt
answers. -/
def confirmWriteFile (filePath : FsPath) (content : String) (opts : Options)
    (st : WriteState) (oracle : List Answer) : Outcome × WriteState × List Answer :=
  let fullPath := opts.directory ++ filePath
  let ex := st.fs.existsPath fullPath
  if !opts.update && ex then (.ret (some false), st, oracle)
  else if ex && opts.update && !opts.force then
    match st.fs.readFile fullPath with
    | none => (.fatal, st, oracle)
    | some existingData =>
      if content = existingData then (.ret (some false), st, oracle)
      else
        match oracle with
        | [] => (.blocked, st, [])
        | Answer.yes :: rest => writeStep fullPath content opts.dontPrune st rest
        | Answer.no :: rest => (.ret none, st, rest)
        | Answer.showDiff :: rest =>
          match confirmWriteFile filePath content opts st rest with
          | (Outcome.blocked, st2, rest2) => (.blocked, st2, rest2)
          | (Outcome.fatal, st2, rest2) => (.fatal, st2, rest2)
          | (Outcome.ret _, st2, rest2) => (.ret none, st2, rest2)
  else if opts.force then writeStep fullPath content opts.dontPrune st oracle
  else if !ex then writeStep fullPath content opts.dontPrune st oracle
  else (.ret none, st, oracle)

/-- src/unnamed/part_000 lines 101-111: `mkdir(filePath, options)`.
When mkdirp reports that it created something, EVERY segment of
`filePath` (joined under `options.directory`) is pushed onto
`dirsWritten`, deepest first. -/
def mkdir (filePath : FsPath) (opts : Options) (st : WriteState) : WriteState × Bool :=
  match st.fs.mkdirp (opts.directory ++ filePath) with
  | (fs2, some _) =>
    ({ st with
        fs := fs2,
        dirsWritten := st.dirsWritten ++
          ((List.range filePath.length).reverse.map
            (fun i => opts.directory ++ filePath.take (i + 1))) }, true)
  | (fs2, none) => ({ st with fs := fs2 }, false)

/-- Phase 1 of `cleanupWrittenFiles`: `filesWritten.forEach(file =>
fs.unlinkSync(file))`.  There is no try/catch, so the first failing
unlink aborts the loop and the error escapes (second component). -/
def cleanupPhase1 : FS → List FsPath → FS × Option String
  | fs, [] => (fs, none)
  | fs, p :: rest =>
    match fs.unlink p with
    | .ok fs2 => cleanupPhase1 fs2 rest
    | .error e => (fs, some e)

/-- The inner loop of phase 2 for one ledgered directory: walk the
prefixes of `parts` from depth `i` down to 0, removing each existing
empty directory, and stopping (break) at the first prefix that is not
an existing empty directory.  The empty prefix is skipped (continue). -/
def chainWalkAux (parts : FsPath) : Nat → FS → FS
  | 0, fs => fs
  | i + 1, fs =>
    if parts.take (i + 1) = [] then chainWalkAux parts i fs
    else if fs.existsPath (parts.take (i + 1)) && fs.childCount (parts.take (i + 1)) == 0 then
      chainWalkAux parts i (fs.rmdir (parts.take (i + 1)))
    else fs

def chainWalk (fs : FS) (parts : FsPath) : FS :=
  chainWalkAux parts parts.length fs

/-- Phase 2 of `cleanupWrittenFiles`: dedup `dirsWritten`, then walk
each entry's ancestor chain. -/
def cleanupPhase2 (fs : FS) (dirsWritten : List FsPath) : FS :=
  (dedupKeepFirst dirsWritten).foldl chainWalk fs

/-- src/unnamed/part_000 lines 115-133: `cleanupWrittenFiles()`.
Returns the final filesystem and the error escaping from phase 1, if
any (in which case phase 2 never runs). -/
def cleanupWrittenFiles (st : WriteState) : FS × Option String :=
  match cleanupPhase1 st.fs st.filesWritten with
  | (fs1, some e) => (fs1, some e)
  | (fs1, none) => (cleanupPhase2 fs1 st.dirsWritten, none)

end Util

/-- JSON-like structured values, the data manipulated by the
yaml.safeLoad / lodash merge / yaml.safeDump pipeline of
src/src/index.js. -/
inductive Json where
  | null
  | bool (b : Bool)
  | num (n : Int)
  | str (s : String)
  | arr (xs : List Json)
  | obj (fields : List (String × Json))

mutual

/-- The semantics of lodash `merge(template, properties)` as invoked at
src/src/index.js line 308: plain objects are merged key-recursively
(overlay key wins, template-only keys survive, overlay-only keys are
appended); arrays are merged INDEX-WISE like objects keyed by index
(an overlay element overrides the template element at the same index,
template elements beyond the overlay length are retained); any other
overlay value overwrites the template value. -/
def merge : Json → Json → Json
  | Json.obj t, o =>
    match o with
    | Json.obj og => Json.obj (mergeObj t og)
    | _ => o
  | Json.arr t, o =>
    match o with
    | Json.arr og => Json.arr (mergeArr t og)
    | _ => o
  | _, o => o

/-- Index-wise merge of two JSON arrays (lodash treats an array source
like an object with numeric keys). -/
def mergeArr : List Json → List Json → List Json
  | [], os => os
  | ts, [] => ts
  | t :: ts, o :: os => merge t o :: mergeArr ts os

/-- Key-wise merge of two JSON objects: destination keys in order, each
merged with the matching source value when present; then the source
keys that are new, in source order. -/
def mergeObj : List (String × Json) → List (String × Json) → List (String × Json)
  | [], os => os
  | (k, v) :: ts, os =>
    match os.find? (fun kv => kv.1 == k) with
    | some kv2 => (k, merge v kv2.2) :: mergeObj ts (os.filter (fun kv => kv.1 != k))
    | none => (k, v) :: mergeObj ts os

end

mutual

/-- The merge the spec describes in its own words: identical to lodash
merge on objects, but an overlay array replaces the template array
wholesale.  Kept only to compare the spec sentence with the code. -/
def mergeSpecWording : Json → Json → Json
  | Json.obj t, o =>
    match o with
    | Json.obj og => Json.obj (mergeSpecWordingObj t og)
    | _ => o
  | _, o => o

def mergeSpecWordingObj : List (String × Json) → List (String × Json) → List (String × Json)
  | [], os => os
  | (k, v) :: ts, os =>
    match os.find? (fun kv => kv.1 == k) with
    | some kv2 => (k, mergeSpecWording v kv2.2) :: mergeSpecWordingObj ts (os.filter (fun kv => kv.1 != k))
    | none => (k, v) :: mergeSpecWordingObj ts os

end

namespace DNA

/-- External collaborators of src/src/index.js `confirmWriteFile`:
yaml.safeLoad, yaml.safeDump, and the line diff rendering of
`tryDiff`.  The embedding is parametric in them. -/
structure Extern where
  yamlLoad : String → Json
  yamlDump : Json → String
  renderDiff : String → String → String

/-- Ambient run configuration of the `deployNodeApp` closure:
`cwd`, `__dirname`, `overwrite = opts.overwrite`,
`prompts = !opts.confirm`, `silence = (opts.output === '-')`. -/
structure Ctx where
  cwd : FsPath
  dirname : FsPath
  overwrite : Bool
  prompts : Bool
  silence : Bool
deriving DecidableEq

/-- The named arguments of src/src/index.js `confirmWriteFile`. -/
structure Args where
  content : Option String := none
  templatePath : Option FsPath := none
  output : Option String := none
  properties : Option Json := none

/-- Observable events of one `confirmWriteFile` call, in order:
filesystem reads (attempted), filesystem writes, bytes written to
process.stdout, and prompts shown to the user. -/
inductive Ev where
  | fsRead (p : FsPath)
  | fsWrite (p : FsPath) (c : String)
  | stdout (s : String)
  | prompt (p : FsPath)
deriving DecidableEq

/-- How the call ends: `ok r` is a JS return (none = undefined),
`err m` a thrown error / rejected promise, `blocked` a prompt with no
oracle answer left. -/
inductive Res where
  | ok (r : Option Bool)
  | err (m : String)
  | blocked
deriving DecidableEq

/-- JS truthiness of a possibly-undefined string. -/
def jsTruthy : Option String → Bool
  | none => false
  | some s => !s.isEmpty

/-- JS `a || b` on possibly-undefined strings. -/
def jsOr (a b : Option String) : Option String :=
  if jsTruthy a then a else b

/-- Does the last segment of the template path end in the given
suffix (`templatePath.endsWith('.yaml')`)? -/
def pathEndsWith (p : FsPath) (suf : String) : Bool :=
  match p.getLast? with
  | some s => s.endsWith suf
  | none => false

/-- The tail of src/src/index.js `confirmWriteFile` (lines 358-369):
`if (!doWrite && output !== '-') return false; else if (content ||
template) { emit to stdout with a trailing newline, or write to disk };
else throw`. -/
def finalStep (args : Args) (template : Option String) (fullPath : FsPath)
    (doWrite : Bool) (fs : FS) (ev : List Ev) (oracle : List Util.Answer) :
    Res × FS × List Ev × List Util.Answer :=
  if !doWrite && args.output != some "-" then (.ok (some false), fs, ev, oracle)
  else if jsTruthy (jsOr args.content template) then
    let body := (jsOr args.content template).getD ""
    if args.output == some "-" then
      (.ok (some true), fs, ev ++ [Ev.stdout (body ++ "\n")], oracle)
    else
      (.ok (some true), fs.writeFile fullPath body, ev ++ [Ev.fsWrite fullPath body], oracle)
  else (.err "Please provide one of content, templatePath for confirmWriteFile", fs, ev, oracle)

/-- src/src/index.js lines 300-313: read the template file (when a
`templatePath` is given) and, for a yaml template with `properties`,
overlay them with lodash merge and re-dump; then the dual-source check
(`if (content && templatePath) throw ...`), which therefore fires only
AFTER the template has been read. -/
def readTemplate (ext : Extern) (dirname : FsPath) (args : Args) (fs : FS) :
    Except (String × List Ev) (Option String × List Ev) :=
  match args.templatePath with
  | none => .ok (none, [])
  | some tp =>
    let tplPath := dirname ++ tp
    match fs.readFile tplPath with
    | none => .error ("ENOENT: no such template", [Ev.fsRead tplPath])
    | some raw =>
      let template :=
        if args.properties.isSome && pathEndsWith tp ".yaml" then
          ext.yamlDump (merge (ext.yamlLoad raw) (args.properties.getD Json.null)) ++ "\n"
        else raw
      if jsTruthy args.content then
        .error ("Provide only one of content, templatePath", [Ev.fsRead tplPath])
      else .ok (some template, [Ev.fsRead tplPath])

/-- The nested `confirmWriteFile` calls made by the show-diff branch:
the source recurses with `{ templatePath, content, properties }`,
dropping `output`, so every nested call runs with `output = undefined`
(and any deeper show-diff recursion passes the same argument bag
again).  This function is that nested call; it is only ever invoked
with `args.output = none`, so its own show-diff recursion keeps `args`
unchanged. -/
def confirmRec (ext : Extern) (ctx : Ctx) (filePath : FsPath) (args : Args)
    (fs : FS) (oracle : List Util.Answer) : Res × FS × List Ev × List Util.Answer :=
  let fullPath := ctx.cwd ++ filePath
  match readTemplate ext ctx.dirname args fs with
  | .error me => (.err me.1, fs, me.2, oracle)
  | .ok te =>
    let template := te.1
    let existingContent := fs.readFile fullPath
    let ev1 := te.2 ++ [Ev.fsRead fullPath]
    if ctx.overwrite then
      finalStep args template fullPath true fs ev1 oracle
    else if args.output != some "-" && existingContent == jsOr args.content template then
      (.ok (some false), fs, ev1, oracle)
    else if jsTruthy existingContent && ctx.prompts && !ctx.silence then
      match oracle with
      | [] => (.blocked, fs, ev1 ++ [Ev.prompt fullPath], [])
      | Util.Answer.yes :: rest =>
        finalStep args template fullPath true fs (ev1 ++ [Ev.prompt fullPath]) rest
      | Util.Answer.no :: rest =>
        finalStep args template fullPath false fs (ev1 ++ [Ev.prompt fullPath]) rest
      | Util.Answer.showDiff :: rest =>
        let diffEv := [Ev.fsRead fullPath,
          Ev.stdout (ext.renderDiff (existingContent.getD "")
            ((jsOr args.content template).getD ""))]
        match confirmRec ext ctx filePath args fs rest with
        | (Res.blocked, fs2, ev2, rest2) =>
          (.blocked, fs2, ev1 ++ [Ev.prompt fullPath] ++ diffEv ++ ev2, rest2)
        | (Res.err m, fs2, ev2, rest2) =>
          (.err m, fs2, ev1 ++ [Ev.prompt fullPath] ++ diffEv ++ ev2, rest2)
        | (Res.ok _, fs2, ev2, rest2) =>
          finalStep args template fullPath false fs2
            (ev1 ++ [Ev.prompt fullPath] ++ diffEv ++ ev2) rest2
    else
      let doWrite := !jsTruthy existingContent
      finalStep args template fullPath doWrite fs ev1 oracle

/-- src/src/index.js lines 286-370: `confirmWriteFile(filePath,
{ content, templatePath, output, properties })`.  Faithful ordering:
the template is read (and merged) first, then the dual-source check
throws, then the target path is read, then the policy decision is
taken (possibly prompting; show-diff re-renders the diff and re-enters
`confirmWriteFile` with `output` dropped, discarding the recursive
result), and finally the write/emit tail runs. -/
def confirmWriteFile (ext : Extern) (ctx : Ctx) (filePath : FsPath) (args : Args)
    (fs : FS) (oracle : List Util.Answer) : Res × FS × List Ev × List Util.Answer :=
  let fullPath := ctx.cwd ++ filePath
  match readTemplate ext ctx.dirname args fs with
  | .error me => (.err me.1, fs, me.2, oracle)
  | .ok te =>
    let template := te.1
    let existingContent := fs.readFile fullPath
    let ev1 := te.2 ++ [Ev.fsRead fullPath]
    if ctx.overwrite then
      finalStep args template fullPath true fs ev1 oracle
    else if args.output != some "-" && existingContent == jsOr args.content template then
      (.ok (some false), fs, ev1, oracle)
    else if jsTruthy existingContent && ctx.prompts && !ctx.silence then
      match oracle with
      | [] => (.blocked, fs, ev1 ++ [Ev.prompt fullPath], [])
      | Util.Answer.yes :: rest =>
        finalStep args template fullPath true fs (ev1 ++ [Ev.prompt fullPath]) rest
      | Util.Answer.no :: rest =>
        finalStep args template fullPath false fs (ev1 ++ [Ev.prompt fullPath]) rest
      | Util.Answer.showDiff :: rest =>
        let diffEv := [Ev.fsRead fullPath,
          Ev.stdout (ext.renderDiff (existingContent.getD "")
            ((jsOr args.content template).getD ""))]
        match confirmRec ext ctx filePath
            { content := args.content, templatePath := args.templatePath,
              output := none, properties := args.properties } fs rest with
        | (Res.blocked, fs2, ev2, rest2) =>
          (.blocked, fs2, ev1 ++ [Ev.prompt fullPath] ++ diffEv ++ ev2, rest2)
        | (Res.err m, fs2, ev2, rest2) =>
          (.err m, fs2, ev1 ++ [Ev.prompt fullPath] ++ diffEv ++ ev2, rest2)
        | (Res.ok _, fs2, ev2, rest2) =>
          finalStep args template fullPath false fs2
            (ev1 ++ [Ev.prompt fullPath] ++ diffEv ++ ev2) rest2
    else
      let doWrite := !jsTruthy existingContent
      finalStep args template fullPath doWrite fs ev1 oracle

end DNA

/-! ## Basic lemmas about the filesystem model -/

theorem FS.isFile_of_readFile {fs : FS} {p : FsPath} {c : String}
    (h : fs.readFile p = some c) : fs.isFile p = true := by
  unfold FS.readFile at h
  unfold FS.isFile
  cases hf : fs.files.find? (fun fc => fc.1 == p) with
  | none => rw [hf] at h; simp at h
  | some fc =>
    have hmem := List.mem_of_find?_eq_some hf
    have hpred := List.find?_some hf
    rw [List.any_eq_true]
    exact ⟨fc, hmem, hpred⟩

theorem FS.existsPath_of_readFile {fs : FS} {p : FsPath} {c : String}
    (h : fs.readFile p = some c) : fs.existsPath p = true := by
  unfold FS.existsPath
  rw [FS.isFile_of_readFile h]
  rfl

theorem FS.isFile_false_of_existsPath_false {fs : FS} {p : FsPath}
    (h : fs.existsPath p = false) : fs.isFile p = false := by
  unfold FS.existsPath at h
  exact (Bool.or_eq_false_iff.mp h).1

theorem FS.isDir_false_of_existsPath_false {fs : FS} {p : FsPath}
    (h : fs.existsPath p = false) : fs.isDir p = false := by
  unfold FS.existsPath at h
  exact (Bool.or_eq_false_iff.mp h).2

theorem FS.readFile_writeFile (fs : FS) (p : FsPath) (c : String) :
    (fs.writeFile p c).readFile p = some c := by
  unfold FS.writeFile FS.readFile
  simp

theorem FS.isFile_writeFile (fs : FS) (p : FsPath) (c : String) :
    (fs.writeFile p c).isFile p = true := by
  unfold FS.writeFile FS.isFile
  simp

theorem FS.existsPath_writeFile (fs : FS) (p : FsPath) (c : String) :
    (fs.writeFile p c).existsPath p = true := by
  unfold FS.existsPath
  rw [FS.isFile_writeFile]
  rfl

theorem FS.unlink_ok {fs fs2 : FS} {p : FsPath} (h : fs.unlink p = Except.ok fs2) :
    fs2.files = fs.files.filter (fun fc => fc.1 != p) ∧ fs2.dirs = fs.dirs := by
  unfold FS.unlink at h
  split at h
  · cases h; exact ⟨rfl, rfl⟩
  · cases h

theorem FS.isFile_unlink_other {fs fs2 : FS} {p q : FsPath}
    (h : fs.unlink p = Except.ok fs2) (hne : q ≠ p) :
    fs2.isFile q = fs.isFile q := by
  obtain ⟨hf, _⟩ := FS.unlink_ok h
  unfold FS.isFile
  rw [hf, Bool.eq_iff_iff]
  simp only [List.any_eq_true, List.mem_filter, bne_iff_ne, beq_iff_eq]
  constructor
  · rintro ⟨fc, ⟨hm, _⟩, hq⟩
    exact ⟨fc, hm, hq⟩
  · rintro ⟨fc, hm, hq⟩
    exact ⟨fc, ⟨hm, by rw [hq]; exact hne⟩, hq⟩

theorem FS.isFile_unlink_self {fs fs2 : FS} {p : FsPath}
    (h : fs.unlink p = Except.ok fs2) : fs2.isFile p = false := by
  obtain ⟨hf, _⟩ := FS.unlink_ok h
  unfold FS.isFile
  rw [hf, Bool.eq_false_iff]
  intro hx
  rw [List.any_eq_true] at hx
  obtain ⟨fc, hm, hq⟩ := hx
  rw [List.mem_filter] at hm
  rw [beq_iff_eq] at hq
  exact absurd hq (bne_iff_ne.mp hm.2)

/-! ## Lemmas about rollback phase 1 (file deletion loop) -/

theorem Util.dirs_cleanupPhase1 (l : List FsPath) : ∀ fs : FS,
    (Util.cleanupPhase1 fs l).1.dirs = fs.dirs := by
  induction l with
  | nil => intro fs; rfl
  | cons p rest ih =>
    intro fs
    unfold Util.cleanupPhase1
    cases hu : fs.unlink p with
    | ok fs2 =>
      rw [ih fs2]
      exact (FS.unlink_ok hu).2
    | error e => rfl

theorem Util.isFile_cleanupPhase1 (l : List FsPath) : ∀ (fs : FS) (q : FsPath), q ∉ l →
    (Util.cleanupPhase1 fs l).1.isFile q = fs.isFile q := by
  induction l with
  | nil => intro fs q _; rfl
  | cons p rest ih =>
    intro fs q hq
    have hqp : q ≠ p := fun h => hq (h ▸ List.mem_cons_self p rest)
    have hqr : q ∉ rest := fun h => hq (List.mem_cons_of_mem p h)
    unfold Util.cleanupPhase1
    cases hu : fs.unlink p with
    | ok fs2 =>
      rw [ih fs2 q hqr]
      exact FS.isFile_unlink_other hu hqp
    | error e => rfl

theorem Util.cleanupPhase1_ok (l : List FsPath) : ∀ fs : FS, l.Nodup →
    (∀ p ∈ l, fs.isFile p = true) →
    (Util.cleanupPhase1 fs l).2 = none ∧
      ∀ p ∈ l, (Util.cleanupPhase1 fs l).1.isFile p = false := by
  induction l with
  | nil =>
    intro fs _ _
    exact ⟨rfl, by intro p hp; cases hp⟩
  | cons p rest ih =>
    intro fs hnd hall
    have hp : fs.isFile p = true := hall p (List.mem_cons_self p rest)
    have hok : ∃ fs2, fs.unlink p = Except.ok fs2 := by
      unfold FS.unlink
      rw [hp]
      exact ⟨_, rfl⟩
    obtain ⟨fs2, hu⟩ := hok
    have hstep : Util.cleanupPhase1 fs (p :: rest) = Util.cleanupPhase1 fs2 rest := by
      have h0 : Util.cleanupPhase1 fs (p :: rest) =
          (match fs.unlink p with
           | Except.ok fs3 => Util.cleanupPhase1 fs3 rest
           | Except.error e => (fs, some e)) := rfl
      rw [h0, hu]
    rw [hstep]
    have hndr : rest.Nodup := (List.nodup_cons.mp hnd).2
    have hpnr : p ∉ rest := (List.nodup_cons.mp hnd).1
    have hallr : ∀ q ∈ rest, fs2.isFile q = true := by
      intro q hq
      have hqp : q ≠ p := fun h => hpnr (h ▸ hq)
      rw [FS.isFile_unlink_other hu hqp]
      exact hall q (List.mem_cons_of_mem p hq)
    obtain ⟨hnone, hdel⟩ := ih fs2 hndr hallr
    refine ⟨hnone, ?_⟩
    intro q hq
    rcases List.mem_cons.mp hq with h | h
    · subst h
      rw [Util.isFile_cleanupPhase1 rest fs2 q hpnr]
      exact FS.isFile_unlink_self hu
    · exact hdel q h

/-! ## Lemmas about rollback phase 2 (directory chain walks) -/

theorem Util.files_chainWalkAux (parts : FsPath) (i : Nat) : ∀ fs : FS,
    (Util.chainWalkAux parts i fs).files = fs.files := by
  induction i with
  | zero => intro fs; rfl
  | succ n ih =>
    intro fs
    unfold Util.chainWalkAux
    split
    · exact ih fs
    · split
      · rw [ih]; rfl
      · rfl

theorem Util.files_chainWalk (fs : FS) (parts : FsPath) :
    (Util.chainWalk fs parts).files = fs.files :=
  Util.files_chainWalkAux parts parts.length fs

theorem Util.files_foldl_chainWalk (m : List FsPath) : ∀ fs : FS,
    (m.foldl Util.chainWalk fs).files = fs.files := by
  induction m with
  | nil => intro fs; rfl
  | cons d rest ih =>
    intro fs
    rw [List.foldl_cons, ih, Util.files_chainWalk]

theorem Util.files_cleanupPhase2 (fs : FS) (l : List FsPath) :
    (Util.cleanupPhase2 fs l).files = fs.files :=
  Util.files_foldl_chainWalk (dedupKeepFirst l) fs

theorem FS.isFile_rmdir (fs : FS) (d p : FsPath) :
    (fs.rmdir d).isFile p = fs.isFile p := rfl

theorem isChild_take_succ {f : FsPath} {j : Nat} (h : j < f.length) :
    isChild (f.take j) (f.take (j + 1)) = true := by
  unfold isChild
  rw [decide_eq_true_eq]
  have h1 : (f.take j).length = j := by
    rw [List.length_take]; omega
  constructor
  · rw [List.length_take, h1]; omega
  · rw [h1, List.take_take]
    congr 1
    omega

theorem FS.childCount_ne_zero_of_file {fs : FS} {d c : FsPath}
    (hc : fs.isFile c = true) (hch : isChild d c = true) : fs.childCount d ≠ 0 := by
  unfold FS.childCount
  intro h0
  have hA : (fs.files.filter (fun fc => isChild d fc.1)).length = 0 := by omega
  rw [List.length_eq_zero] at hA
  unfold FS.isFile at hc
  rw [List.any_eq_true] at hc
  obtain ⟨fc, hm, hq⟩ := hc
  have hmem : fc ∈ fs.files.filter (fun fc => isChild d fc.1) := by
    rw [List.mem_filter]
    refine ⟨hm, ?_⟩
    rw [beq_iff_eq] at hq
    rw [hq]
    exact hch
  rw [hA] at hmem
  cases hmem

theorem FS.childCount_ne_zero_of_dir {fs : FS} {d c : FsPath}
    (hc : c ∈ fs.dirs) (hch : isChild d c = true) : fs.childCount d ≠ 0 := by
  unfold FS.childCount
  intro h0
  have hB : (fs.dirs.filter (fun q => isChild d q)).length = 0 := by omega
  rw [List.length_eq_zero] at hB
  have hmem : c ∈ fs.dirs.filter (fun q => isChild d q) := by
    rw [List.mem_filter]; exact ⟨hc, hch⟩
  rw [hB] at hmem
  cases hmem

theorem Util.chainIntact_rmdir {fs : FS} {f d : FsPath}
    (hfile : fs.isFile f = true)
    (hchain : ∀ j, 1 ≤ j → j < f.length → f.take j ∈ fs.dirs)
    (hguard : fs.childCount d = 0) :
    ∀ j, 1 ≤ j → j < f.length → f.take j ∈ (fs.rmdir d).dirs := by
  intro j hj1 hj2
  unfold FS.rmdir
  rw [List.mem_filter]
  refine ⟨hchain j hj1 hj2, ?_⟩
  rw [bne_iff_ne]
  intro heq
  rcases Nat.lt_or_ge (j + 1) f.length with hlt | hge
  · have hcd : f.take (j + 1) ∈ fs.dirs := hchain (j + 1) (by omega) hlt
    have hch : isChild d (f.take (j + 1)) = true := heq ▸ isChild_take_succ hj2
    exact FS.childCount_ne_zero_of_dir hcd hch hguard
  · have hj3 : j + 1 = f.length := by omega
    have hch : isChild d (f.take (j + 1)) = true := heq ▸ isChild_take_succ hj2
    rw [hj3, List.take_length] at hch
    exact FS.childCount_ne_zero_of_file hfile hch hguard

theorem Util.chainIntact_chainWalkAux (parts f : FsPath) (i : Nat) : ∀ fs : FS,
    fs.isFile f = true →
    (∀ j, 1 ≤ j → j < f.length → f.take j ∈ fs.dirs) →
    (Util.chainWalkAux parts i fs).isFile f = true ∧
      ∀ j, 1 ≤ j → j < f.length → f.take j ∈ (Util.chainWalkAux parts i fs).dirs := by
  induction i with
  | zero => intro fs h1 h2; exact ⟨h1, h2⟩
  | succ n ih =>
    intro fs h1 h2
    unfold Util.chainWalkAux
    split
    · exact ih fs h1 h2
    · split
      · rename_i hg
        have hcc : fs.childCount (List.take (n + 1) parts) = 0 := by
          rw [Bool.and_eq_true] at hg
          have hx := hg.2
          rw [beq_iff_eq] at hx
          exact hx
        exact ih _ (by rw [FS.isFile_rmdir]; exact h1)
          (Util.chainIntact_rmdir h1 h2 hcc)
      · exact ⟨h1, h2⟩

theorem Util.chainIntact_foldl (m : List FsPath) (f : FsPath) : ∀ fs : FS,
    fs.isFile f = true →
    (∀ j, 1 ≤ j → j < f.length → f.take j ∈ fs.dirs) →
    (m.foldl Util.chainWalk fs).isFile f = true ∧
      ∀ j, 1 ≤ j → j < f.length → f.take j ∈ (m.foldl Util.chainWalk fs).dirs := by
  induction m with
  | nil => intro fs h1 h2; exact ⟨h1, h2⟩
  | cons d rest ih =>
    intro fs h1 h2
    rw [List.foldl_cons]
    obtain ⟨h1', h2'⟩ := Util.chainIntact_chainWalkAux d f d.length fs h1 h2
    exact ih _ h1' h2'

/-! ## Claim C1 -/

/-- C1 (rollback safety): for every run state, after
`cleanupWrittenFiles` finishes (normally or by raising), a file `f`
that was not created by this run (not in the `filesWritten` ledger) is
still on disk, and every directory on the ancestor chain that
contained it still exists.  In particular every directory that
contained a pre-existing user file still exists: phase 2 deletes a
directory only when `readdirSync` reports zero entries, and the upward
walk breaks at the first non-empty directory, so a directory holding a
surviving file is never removed. -/
theorem rollback_preserves_user_file_dirs
    (st : Util.WriteState) (f : FsPath)
    (hf : st.fs.isFile f = true)
    (hnot : f ∉ st.filesWritten)
    (hchain : ∀ j, 1 ≤ j → j < f.length → f.take j ∈ st.fs.dirs) :
    (Util.cleanupWrittenFiles st).1.isFile f = true ∧
      ∀ j, 1 ≤ j → j < f.length → f.take j ∈ (Util.cleanupWrittenFiles st).1.dirs := by
  unfold Util.cleanupWrittenFiles
  rcases hp1 : Util.cleanupPhase1 st.fs st.filesWritten with ⟨fs1, err⟩
  have hfile1 : fs1.isFile f = true := by
    have hq := Util.isFile_cleanupPhase1 st.filesWritten st.fs f hnot
    rw [hp1] at hq
    rw [← hq] at hf
    exact hf
  have hdirs1 : fs1.dirs = st.fs.dirs := by
    have hq := Util.dirs_cleanupPhase1 st.filesWritten st.fs
    rw [hp1] at hq
    exact hq
  have hchain1 : ∀ j, 1 ≤ j → j < f.length → f.take j ∈ fs1.dirs := by
    intro j a b
    rw [hdirs1]
    exact hchain j a b
  cases err with
  | some e => exact ⟨hfile1, hchain1⟩
  | none =>
    obtain ⟨h1, h2⟩ :=
      Util.chainIntact_foldl (dedupKeepFirst st.dirsWritten) f fs1 hfile1 hchain1
    exact ⟨h1, h2⟩

/-- Witness for C1: a run that created `p/x` (file) and ledgered `p`
(directory); the user file `p/u` predates the run.  After rollback the
file `p/u` and its directory `p` both survive. -/
theorem rollback_preserves_user_file_dirs_witness :
    (Util.cleanupWrittenFiles
      { fs := { files := [(["p", "u"], "data"), (["p", "x"], "tmp")],
                dirs := [["p"]] },
        filesWritten := [["p", "x"]],
        dirsWritten := [["p"]] }).1.isFile ["p", "u"] = true ∧
    ["p"] ∈ (Util.cleanupWrittenFiles
      { fs := { files := [(["p", "u"], "data"), (["p", "x"], "tmp")],
                dirs := [["p"]] },
        filesWritten := [["p", "x"]],
        dirsWritten := [["p"]] }).1.dirs := by
  have h := rollback_preserves_user_file_dirs
    { fs := { files := [(["p", "u"], "data"), (["p", "x"], "tmp")],
              dirs := [["p"]] },
      filesWritten := [["p", "x"]],
      dirsWritten := [["p"]] }
    ["p", "u"] (by decide) (by decide)
    (by
      intro j h1 h2
      have hj : j = 1 := by
        simp only [List.length_cons, List.length_nil] at h2
        omega
      subst hj
      decide)
  refine ⟨h.1, ?_⟩
  have h2 := h.2 1 (by omega) (by decide)
  simpa using h2

/-! ## Claim C9 -/

/-- C9: the phase-2 walk of `cleanupWrittenFiles` runs over the FULL
segment chain of each deduplicated ledgered directory, not stopping at
the project root.  Concretely: the project directory is `h/p`, `mkdir`
creates `h/p/a` and ledgers only `h/p/a`; rollback then deletes
`h/p/a`, the (never ledgered) project directory `h/p`, and its (never
ledgered) ancestor `h`, because each is empty when reached — the
resulting directory list is empty even though `h` and `h/p` were never
recorded in the ledger. -/
theorem rollback_walks_past_project_root :
    (Util.mkdir ["a"]
        { update := false, force := false, dontPrune := false, directory := ["h", "p"] }
        { fs := { files := [], dirs := [["h"], ["h", "p"]] },
          filesWritten := [], dirsWritten := [] }).1.dirsWritten =
      [["h", "p", "a"]] ∧
    (["h", "p"] ∈ (Util.mkdir ["a"]
        { update := false, force := false, dontPrune := false, directory := ["h", "p"] }
        { fs := { files := [], dirs := [["h"], ["h", "p"]] },
          filesWritten := [], dirsWritten := [] }).1.dirsWritten → False) ∧
    (Util.cleanupWrittenFiles ((Util.mkdir ["a"]
        { update := false, force := false, dontPrune := false, directory := ["h", "p"] }
        { fs := { files := [], dirs := [["h"], ["h", "p"]] },
          filesWritten := [], dirsWritten := [] }).1)).1.dirs = [] ∧
    (Util.cleanupWrittenFiles ((Util.mkdir ["a"]
        { update := false, force := false, dontPrune := false, directory := ["h", "p"] }
        { fs := { files := [], dirs := [["h"], ["h", "p"]] },
          filesWritten := [], dirsWritten := [] }).1)).2 = none := by
  decide

/-! ## Claim C10 -/

/-- C10: when the user answers show-diff and then accepts in the
re-prompt, the file IS written (by the recursive `confirmWriteFile`
call), but the outer call resolves to `undefined` (`ret none`) — not
the `true` of a performed write nor the `false` of a skip — because
the recursive result is discarded and the outer `doWrite` stays false.
No ledger entry is made (the file pre-existed). -/
theorem show_diff_accept_returns_undefined
    (filePath : FsPath) (content : String) (opts : Util.Options)
    (st : Util.WriteState) (rest : List Util.Answer) (existingData : String)
    (hupd : opts.update = true) (hforce : opts.force = false)
    (hread : st.fs.readFile (opts.directory ++ filePath) = some existingData)
    (hne : content ≠ existingData)
    (hnd : st.fs.isDir (opts.directory ++ filePath) = false) :
    Util.confirmWriteFile filePath content opts st
        (Util.Answer.showDiff :: Util.Answer.yes :: rest) =
      (Util.Outcome.ret none,
        { st with fs := st.fs.writeFile (opts.directory ++ filePath) content }, rest) := by
  have hex : st.fs.existsPath (opts.directory ++ filePath) = true :=
    FS.existsPath_of_readFile hread
  have hinner : Util.confirmWriteFile filePath content opts st (Util.Answer.yes :: rest) =
      (Util.Outcome.ret (some true),
        { st with fs := st.fs.writeFile (opts.directory ++ filePath) content }, rest) := by
    simp [Util.confirmWriteFile, Util.writeStep, Util.pushLedger, hupd, hforce, hex,
      hread, hne, hnd]
  simp [Util.confirmWriteFile, hupd, hforce, hex, hread, hne, hinner]

/-- Witness for C10: concrete show-diff-then-accept run; the file gets
the new content but the call resolves to undefined. -/
theorem show_diff_accept_returns_undefined_witness :
    Util.confirmWriteFile ["f"] "new"
        { update := true, force := false, dontPrune := false, directory := ["d"] }
        { fs := { files := [(["d", "f"], "old")], dirs := [["d"]] },
          filesWritten := [], dirsWritten := [] }
        [Util.Answer.showDiff, Util.Answer.yes] =
      (Util.Outcome.ret none,
        { fs := { files := [(["d", "f"], "new")], dirs := [["d"]] },
          filesWritten := [], dirsWritten := [] }, []) := by
  have h := show_diff_accept_returns_undefined ["f"] "new"
      { update := true, force := false, dontPrune := false, directory := ["d"] }
      { fs := { files := [(["d", "f"], "old")], dirs := [["d"]] },
        filesWritten := [], dirsWritten := [] } [] "old"
      rfl rfl (by decide) (by decide) (by decide)
  rw [h]
  decide

/-! ## Claim C2 -/

/-- C2 counterexample: with the force flag active but the update flag
unset, `confirmWriteFile` hits `if (!update && exists) return false`
BEFORE the force branch: the existing differing file is NOT
overwritten, the state is unchanged and the decision is skip — the
claim says force writes unconditionally regardless of an existing
file. -/
theorem force_without_update_skips_existing :
    Util.confirmWriteFile ["f"] "new"
        { update := false, force := true, dontPrune := false, directory := ["d"] }
        { fs := { files := [(["d", "f"], "old")], dirs := [["d"]] },
          filesWritten := [], dirsWritten := [] } [] =
      (Util.Outcome.ret (some false),
        { fs := { files := [(["d", "f"], "old")], dirs := [["d"]] },
          filesWritten := [], dirsWritten := [] }, []) := by decide

/-- C2 amended: when force is active AND (the update option is also set
or no file exists at the path), `confirmWriteFile` writes the desired
content unconditionally without prompting; if the path did not
previously exist (and `dontPrune` is unset) exactly one `FileEntry` is
appended to the ledger, if it existed the ledger is untouched; the
decision is write. -/
theorem force_overwrite_writes
    (filePath : FsPath) (content : String) (opts : Util.Options)
    (st : Util.WriteState) (oracle : List Util.Answer)
    (hforce : opts.force = true)
    (hnd : st.fs.isDir (opts.directory ++ filePath) = false)
    (h : opts.update = true ∨ st.fs.existsPath (opts.directory ++ filePath) = false) :
    (Util.confirmWriteFile filePath content opts st oracle).1 = Util.Outcome.ret (some true) ∧
    (Util.confirmWriteFile filePath content opts st oracle).2.1.fs =
      st.fs.writeFile (opts.directory ++ filePath) content ∧
    (Util.confirmWriteFile filePath content opts st oracle).2.2 = oracle ∧
    (st.fs.existsPath (opts.directory ++ filePath) = false →
      opts.dontPrune = false →
      (Util.confirmWriteFile filePath content opts st oracle).2.1.filesWritten =
        st.filesWritten ++ [opts.directory ++ filePath]) ∧
    (st.fs.existsPath (opts.directory ++ filePath) = true →
      (Util.confirmWriteFile filePath content opts st oracle).2.1.filesWritten =
        st.filesWritten) := by
  cases hex : st.fs.existsPath (opts.directory ++ filePath) with
  | true =>
    have hupd : opts.update = true := by
      rcases h with h | h
      · exact h
      · rw [hex] at h; cases h
    simp [Util.confirmWriteFile.eq_def, Util.writeStep, Util.pushLedger, hupd, hforce, hex, hnd]
  | false =>
    cases hdp : opts.dontPrune <;>
      cases hupd : opts.update <;>
        simp [Util.confirmWriteFile.eq_def, Util.writeStep, Util.pushLedger, hforce, hex, hnd, hdp]

/-- Witness for C2: force-writing a fresh path returns write and
ledgers exactly one FileEntry. -/
theorem force_overwrite_writes_witness :
    (Util.confirmWriteFile ["f"] "body"
        { update := false, force := true, dontPrune := false, directory := ["d"] }
        { fs := { files := [], dirs := [["d"]] }, filesWritten := [], dirsWritten := [] }
        []).1 = Util.Outcome.ret (some true) ∧
    (Util.confirmWriteFile ["f"] "body"
        { update := false, force := true, dontPrune := false, directory := ["d"] }
        { fs := { files := [], dirs := [["d"]] }, filesWritten := [], dirsWritten := [] }
        []).2.1.filesWritten = [["d", "f"]] := by
  have h := force_overwrite_writes ["f"] "body"
      { update := false, force := true, dontPrune := false, directory := ["d"] }
      { fs := { files := [], dirs := [["d"]] }, filesWritten := [], dirsWritten := [] }
      [] rfl (by decide) (Or.inr (by decide))
  refine ⟨h.1, ?_⟩
  have h4 := h.2.2.2.1 (by decide) rfl
  simpa using h4

/-! ## Claim C6 -/

theorem FS.mkdirp_snd_isSome_iff (fs : FS) (p : FsPath) :
    (fs.mkdirp p).2.isSome = true ↔
      ∃ i < p.length, fs.isDir (p.take (i + 1)) = false := by
  unfold FS.mkdirp
  cases hm : ((List.range p.length).map (fun i => p.take (i + 1))).filter
      (fun q => !fs.isDir q) with
  | nil =>
    simp only [Option.isSome_none]
    constructor
    · intro h; cases h
    · rintro ⟨i, hi, hd⟩
      exfalso
      have hmem : p.take (i + 1) ∈
          ((List.range p.length).map (fun i => p.take (i + 1))).filter
            (fun q => !fs.isDir q) := by
        rw [List.mem_filter]
        refine ⟨List.mem_map.mpr ⟨i, List.mem_range.mpr hi, rfl⟩, ?_⟩
        rw [hd]
        rfl
      rw [hm] at hmem
      cases hmem
  | cons q rest =>
    simp only [Option.isSome_some, true_iff]
    have hq : q ∈ ((List.range p.length).map (fun i => p.take (i + 1))).filter
        (fun q => !fs.isDir q) := by
      rw [hm]
      exact List.mem_cons_self q rest
    rw [List.mem_filter] at hq
    obtain ⟨hqm, hqd⟩ := hq
    obtain ⟨i, hi, hqe⟩ := List.mem_map.mp hqm
    refine ⟨i, List.mem_range.mp hi, ?_⟩
    subst hqe
    simpa using hqd

/-- C6 counterexample: the project root is `r` and `r/a` already
exists; `mkdir("a/b")` creates only `r/a/b`, yet it appends DirEntries
for BOTH `r/a/b` and the pre-existing `r/a` — the claim says an entry
is appended only for segments that did not exist before the call. -/
theorem mkdir_ledgers_preexisting_segment :
    (Util.mkdir ["a", "b"]
        { update := false, force := false, dontPrune := false, directory := ["r"] }
        { fs := { files := [], dirs := [["r"], ["r", "a"]] },
          filesWritten := [], dirsWritten := [] }).1.dirsWritten =
      [["r", "a", "b"], ["r", "a"]] ∧
    ["r", "a"] ∈ ({ files := [], dirs := [["r"], ["r", "a"]] } : FS).dirs := by decide

/-- C6 amended: `mkdir` returns created=true exactly when some segment
of the full path was missing; in that case it appends a DirEntry for
EVERY segment of the relative path (deepest first, project root
excluded), regardless of whether that particular segment previously
existed; when every segment already existed no entry is appended. -/
theorem mkdir_ledger_segments (filePath : FsPath) (opts : Util.Options)
    (st : Util.WriteState) :
    ((Util.mkdir filePath opts st).2 = true ↔
      ∃ i < (opts.directory ++ filePath).length,
        st.fs.isDir ((opts.directory ++ filePath).take (i + 1)) = false) ∧
    ((Util.mkdir filePath opts st).2 = true →
      (Util.mkdir filePath opts st).1.dirsWritten = st.dirsWritten ++
        ((List.range filePath.length).reverse.map
          (fun i => opts.directory ++ filePath.take (i + 1)))) ∧
    ((Util.mkdir filePath opts st).2 = false →
      (Util.mkdir filePath opts st).1.dirsWritten = st.dirsWritten) := by
  have hiff := FS.mkdirp_snd_isSome_iff st.fs (opts.directory ++ filePath)
  unfold Util.mkdir
  rcases hmk : st.fs.mkdirp (opts.directory ++ filePath) with ⟨fs2, created⟩
  rw [hmk] at hiff
  cases created with
  | some q =>
    simp only [Option.isSome_some] at hiff
    dsimp only
    refine ⟨by simpa using hiff, fun _ => rfl, fun h => Bool.noConfusion h⟩
  | none =>
    simp only [Option.isSome_none] at hiff
    dsimp only
    refine ⟨?_, fun h => Bool.noConfusion h, fun _ => rfl⟩
    constructor
    · intro h; exact Bool.noConfusion h
    · intro h; exact hiff.mpr h

/-- Witness for C6 amended: creating `a/b` under root `r` where `r/a`
already exists ledgers both segments of the relative path. -/
theorem mkdir_ledger_segments_witness :
    (Util.mkdir ["a", "b"]
        { update := false, force := false, dontPrune := false, directory := ["r"] }
        { fs := { files := [], dirs := [["r"], ["r", "a"]] },
          filesWritten := [], dirsWritten := [] }).1.dirsWritten =
      [] ++ ((List.range 2).reverse.map
        (fun i => ["r"] ++ (["a", "b"].take (i + 1)))) := by
  have h := (mkdir_ledger_segments ["a", "b"]
      { update := false, force := false, dontPrune := false, directory := ["r"] }
      { fs := { files := [], dirs := [["r"], ["r", "a"]] },
        filesWritten := [], dirsWritten := [] }).2.1 (by decide)
  exact h

/-! ## Claim C3 -/

/-- C3 counterexample: phase 1 of `cleanupWrittenFiles` has no
try/catch around `fs.unlinkSync`.  With a ledger whose first entry is
already missing and whose second entry exists, the unlink of the first
entry throws, the error escapes to the caller, and the second ledgered
file is never deleted — the claim says rollback never raises and a
failure on one entry never prevents processing of the rest. -/
theorem cleanup_raises_on_missing_file :
    (Util.cleanupWrittenFiles
      { fs := { files := [(["d", "g"], "y")], dirs := [["d"]] },
        filesWritten := [["d", "f"], ["d", "g"]], dirsWritten := [] }).2 =
      some "ENOENT" ∧
    (Util.cleanupWrittenFiles
      { fs := { files := [(["d", "g"], "y")], dirs := [["d"]] },
        filesWritten := [["d", "f"], ["d", "g"]], dirsWritten := [] }).1.isFile
      ["d", "g"] = true := by decide

/-- C3 amended: phase 1 deletes the ledgered `FileEntry` paths in
order, but a failing deletion (for example an already-missing file)
raises the error to the caller, aborting the remaining entries and
phase 2 entirely.  When every ledgered path exists as a file (and the
ledger has no duplicates) no error is raised and every ledgered file
is deleted. -/
theorem cleanup_error_propagation :
    (∀ (fs : FS) (p : FsPath) (rest dirsW : List FsPath),
      fs.isFile p = false →
      Util.cleanupWrittenFiles { fs := fs, filesWritten := p :: rest, dirsWritten := dirsW } =
        (fs, some "ENOENT")) ∧
    (∀ st : Util.WriteState, st.filesWritten.Nodup →
      (∀ p ∈ st.filesWritten, st.fs.isFile p = true) →
      (Util.cleanupWrittenFiles st).2 = none ∧
        ∀ p ∈ st.filesWritten, (Util.cleanupWrittenFiles st).1.isFile p = false) := by
  constructor
  · intro fs p rest dirsW hmiss
    have hu : fs.unlink p = Except.error "ENOENT" := by
      unfold FS.unlink
      rw [hmiss]
      rfl
    have h1 : Util.cleanupPhase1 fs (p :: rest) = (fs, some "ENOENT") := by
      have h0 : Util.cleanupPhase1 fs (p :: rest) =
          (match fs.unlink p with
           | Except.ok fs3 => Util.cleanupPhase1 fs3 rest
           | Except.error e => (fs, some e)) := rfl
      rw [h0, hu]
    unfold Util.cleanupWrittenFiles
    rw [h1]
  · intro st hnd hall
    obtain ⟨hnone, hdel⟩ := Util.cleanupPhase1_ok st.filesWritten st.fs hnd hall
    unfold Util.cleanupWrittenFiles
    rcases hp1 : Util.cleanupPhase1 st.fs st.filesWritten with ⟨fs1, err⟩
    rw [hp1] at hnone hdel
    simp only at hnone
    subst hnone
    refine ⟨rfl, ?_⟩
    intro p hp
    have hfp := hdel p hp
    simp only at hfp
    have hfiles : (Util.cleanupPhase2 fs1 st.dirsWritten).files = fs1.files :=
      Util.files_cleanupPhase2 fs1 st.dirsWritten
    unfold FS.isFile at hfp ⊢
    rw [hfiles]
    exact hfp

/-- Witness for C3 amended: a missing first entry makes rollback raise
ENOENT; a well-formed two-entry ledger is fully deleted with no
error. -/
theorem cleanup_error_propagation_witness :
    Util.cleanupWrittenFiles
        { fs := { files := [], dirs := [] },
          filesWritten := [["a"]], dirsWritten := [] } =
      ({ files := [], dirs := [] }, some "ENOENT") ∧
    (Util.cleanupWrittenFiles
        { fs := { files := [(["a"], "1"), (["b"], "2")], dirs := [] },
          filesWritten := [["a"], ["b"]], dirsWritten := [] }).2 = none := by
  constructor
  · exact cleanup_error_propagation.1 { files := [], dirs := [] } ["a"] [] [] (by decide)
  · exact (cleanup_error_propagation.2
      { fs := { files := [(["a"], "1"), (["b"], "2")], dirs := [] },
        filesWritten := [["a"], ["b"]], dirsWritten := [] }
      (by decide) (by decide)).1

/-! ## Claim C5 -/

theorem Util.pushLedger_fs (fullPath : FsPath) (dontPrune : Bool) (st : Util.WriteState) :
    (Util.pushLedger fullPath dontPrune st).fs = st.fs := by
  unfold Util.pushLedger
  split <;> rfl

theorem Util.writeStep_ret_true (fullPath : FsPath) (content : String) (dontPrune : Bool)
    (st : Util.WriteState) (oracle : List Util.Answer)
    (h : (Util.writeStep fullPath content dontPrune st oracle).1 =
        Util.Outcome.ret (some true)) :
    (Util.writeStep fullPath content dontPrune st oracle).2.1.fs.readFile fullPath =
      some content := by
  cases hc : (Util.pushLedger fullPath dontPrune st).fs.isDir fullPath with
  | true => simp [Util.writeStep, hc] at h
  | false => simp [Util.writeStep, hc, FS.readFile_writeFile]

/-- Whenever `Util.confirmWriteFile` returns `true` (the write
decision), the resulting filesystem holds exactly the desired content
at the target path. -/
theorem Util.confirm_ret_true_readFile (filePath : FsPath) (content : String)
    (opts : Util.Options) (st : Util.WriteState) (oracle : List Util.Answer)
    (h : (Util.confirmWriteFile filePath content opts st oracle).1 =
        Util.Outcome.ret (some true)) :
    (Util.confirmWriteFile filePath content opts st oracle).2.1.fs.readFile
      (opts.directory ++ filePath) = some content := by
  rw [Util.confirmWriteFile.eq_def] at h ⊢
  cases hex : st.fs.existsPath (opts.directory ++ filePath) with
  | false =>
    cases hupd : opts.update <;> cases hforce : opts.force <;>
      · simp only [hupd, hforce, hex] at h ⊢
        simp at h ⊢
        exact Util.writeStep_ret_true _ _ _ _ _ h
  | true =>
    cases hupd : opts.update with
    | false =>
      simp only [hupd, hex] at h
      simp at h
    | true =>
      cases hforce : opts.force with
      | true =>
        simp only [hupd, hforce, hex] at h ⊢
        simp at h ⊢
        exact Util.writeStep_ret_true _ _ _ _ _ h
      | false =>
        simp only [hupd, hforce, hex] at h ⊢
        simp at h ⊢
        cases hrf : st.fs.readFile (opts.directory ++ filePath) with
        | none => rw [hrf] at h; simp at h
        | some existingData =>
          rw [hrf] at h
          dsimp only at h ⊢
          by_cases hcd : content = existingData
          · rw [if_pos hcd] at h; simp at h
          · rw [if_neg hcd] at h ⊢
            cases oracle with
            | nil => simp at h
            | cons a rest =>
              cases a with
              | yes => exact Util.writeStep_ret_true _ _ _ _ _ h
              | no => simp at h
              | showDiff =>
                dsimp only at h ⊢
                rcases hrec : Util.confirmWriteFile filePath content opts st rest with
                  ⟨o2, st2, rest2⟩
                rw [hrec] at h
                cases o2 <;> simp at h

/-- With the update option unset, an existing path is skipped
immediately (the `if (!update && exists) return false` guard). -/
theorem Util.confirm_skip_of_exists (filePath : FsPath) (content : String)
    (opts : Util.Options) (st : Util.WriteState) (oracle : List Util.Answer)
    (hupd : opts.update = false)
    (hex : st.fs.existsPath (opts.directory ++ filePath) = true) :
    Util.confirmWriteFile filePath content opts st oracle =
      (Util.Outcome.ret (some false), st, oracle) := by
  rw [Util.confirmWriteFile.eq_def]
  simp [hupd, hex]

/-- Under the interactive policy, when the existing content equals the
desired content byte-for-byte, the call returns skip without touching
the state or the prompt oracle. -/
theorem Util.confirm_skip_of_same (filePath : FsPath) (content : String)
    (opts : Util.Options) (st : Util.WriteState) (oracle : List Util.Answer)
    (hupd : opts.update = true) (hforce : opts.force = false)
    (hrf : st.fs.readFile (opts.directory ++ filePath) = some content) :
    Util.confirmWriteFile filePath content opts st oracle =
      (Util.Outcome.ret (some false), st, oracle) := by
  have hex := FS.existsPath_of_readFile hrf
  rw [Util.confirmWriteFile.eq_def]
  simp [hupd, hforce, hex, hrf]

/-- C5 counterexample: under the interactive policy with an existing
differing file, the user rejects the first overwrite prompt; the
filesystem is unchanged, yet the SECOND reconcile of the same artifact
invokes the prompt again (with an exhausted oracle it blocks) instead
of silently returning skip.  (Note also that rejection returns
undefined, not skip.) -/
theorem second_reconcile_prompts_after_reject :
    (Util.confirmWriteFile ["f"] "new"
        { update := true, force := false, dontPrune := false, directory := ["d"] }
        { fs := { files := [(["d", "f"], "old")], dirs := [["d"]] },
          filesWritten := [], dirsWritten := [] }
        [Util.Answer.no]).2.1 =
      { fs := { files := [(["d", "f"], "old")], dirs := [["d"]] },
        filesWritten := [], dirsWritten := [] } ∧
    (Util.confirmWriteFile ["f"] "new"
        { update := true, force := false, dontPrune := false, directory := ["d"] }
        { fs := { files := [(["d", "f"], "old")], dirs := [["d"]] },
          filesWritten := [], dirsWritten := [] } []).1 = Util.Outcome.blocked := by decide

/-- C5 amended: the idempotence guarantee holds in these cases: (a)
under the nonInteractive policy (update unset) a second reconcile of
the same artifact with unchanged desired content never prompts and
returns skip, whatever the first call did; (b) under the interactive
policy (update set, force unset), whenever the first reconcile
returned the write decision, the second reconcile returns skip without
prompting.  When the user rejected the overwrite, however, the second
interactive reconcile prompts again (see the counterexample). -/
theorem reconcile_idempotent_cases :
    (∀ (filePath : FsPath) (content : String) (opts : Util.Options)
        (st : Util.WriteState) (oracle oracle2 : List Util.Answer),
      opts.update = false →
      Util.confirmWriteFile filePath content opts
          (Util.confirmWriteFile filePath content opts st oracle).2.1 oracle2 =
        (Util.Outcome.ret (some false),
          (Util.confirmWriteFile filePath content opts st oracle).2.1, oracle2)) ∧
    (∀ (filePath : FsPath) (content : String) (opts : Util.Options)
        (st : Util.WriteState) (oracle oracle2 : List Util.Answer),
      opts.update = true → opts.force = false →
      (Util.confirmWriteFile filePath content opts st oracle).1 =
        Util.Outcome.ret (some true) →
      Util.confirmWriteFile filePath content opts
          (Util.confirmWriteFile filePath content opts st oracle).2.1 oracle2 =
        (Util.Outcome.ret (some false),
          (Util.confirmWriteFile filePath content opts st oracle).2.1, oracle2)) := by
  constructor
  · intro filePath content opts st oracle oracle2 hupd
    cases hex : st.fs.existsPath (opts.directory ++ filePath) with
    | true =>
      rw [Util.confirm_skip_of_exists filePath content opts st oracle hupd hex]
      exact Util.confirm_skip_of_exists filePath content opts st oracle2 hupd hex
    | false =>
      have hnd : st.fs.isDir (opts.directory ++ filePath) = false :=
        FS.isDir_false_of_existsPath_false hex
      have hfirst : Util.confirmWriteFile filePath content opts st oracle =
          Util.writeStep (opts.directory ++ filePath) content opts.dontPrune st oracle := by
        rw [Util.confirmWriteFile.eq_def]
        cases hforce : opts.force <;> simp [hupd, hex, hforce]
      rw [hfirst]
      have hplfs := Util.pushLedger_fs (opts.directory ++ filePath) opts.dontPrune st
      have hdir2 : (Util.pushLedger (opts.directory ++ filePath) opts.dontPrune st).fs.isDir
          (opts.directory ++ filePath) = false := by rw [hplfs]; exact hnd
      have hws : Util.writeStep (opts.directory ++ filePath) content opts.dontPrune st oracle =
          (Util.Outcome.ret (some true),
            { Util.pushLedger (opts.directory ++ filePath) opts.dontPrune st with
                fs := (Util.pushLedger (opts.directory ++ filePath) opts.dontPrune
                    st).fs.writeFile (opts.directory ++ filePath) content },
            oracle) := by
        rw [Util.writeStep]
        simp [hdir2]
      rw [hws]
      apply Util.confirm_skip_of_exists _ _ _ _ _ hupd
      rw [hplfs]
      exact FS.existsPath_writeFile st.fs (opts.directory ++ filePath) content
  · intro filePath content opts st oracle oracle2 hupd hforce h1
    have hrf := Util.confirm_ret_true_readFile filePath content opts st oracle h1
    exact Util.confirm_skip_of_same filePath content opts
      (Util.confirmWriteFile filePath content opts st oracle).2.1 oracle2 hupd hforce hrf

/-- Witness for C5 amended: a nonInteractive first write followed by a
second reconcile that skips, and an interactive write followed by a
skipping second reconcile. -/
theorem reconcile_idempotent_cases_witness :
    Util.confirmWriteFile ["f"] "c"
        { update := false, force := false, dontPrune := false, directory := ["d"] }
        (Util.confirmWriteFile ["f"] "c"
          { update := false, force := false, dontPrune := false, directory := ["d"] }
          { fs := { files := [], dirs := [["d"]] }, filesWritten := [], dirsWritten := [] }
          []).2.1 [] =
      (Util.Outcome.ret (some false),
        (Util.confirmWriteFile ["f"] "c"
          { update := false, force := false, dontPrune := false, directory := ["d"] }
          { fs := { files := [], dirs := [["d"]] }, filesWritten := [], dirsWritten := [] }
          []).2.1, []) ∧
    Util.confirmWriteFile ["g"] "c2"
        { update := true, force := false, dontPrune := false, directory := ["d"] }
        (Util.confirmWriteFile ["g"] "c2"
          { update := true, force := false, dontPrune := false, directory := ["d"] }
          { fs := { files := [(["d", "g"], "old")], dirs := [["d"]] },
            filesWritten := [], dirsWritten := [] }
          [Util.Answer.yes]).2.1 [] =
      (Util.Outcome.ret (some false),
        (Util.confirmWriteFile ["g"] "c2"
          { update := true, force := false, dontPrune := false, directory := ["d"] }
          { fs := { files := [(["d", "g"], "old")], dirs := [["d"]] },
            filesWritten := [], dirsWritten := [] }
          [Util.Answer.yes]).2.1, []) := by
  constructor
  · exact reconcile_idempotent_cases.1 ["f"] "c"
      { update := false, force := false, dontPrune := false, directory := ["d"] }
      { fs := { files := [], dirs := [["d"]] }, filesWritten := [], dirsWritten := [] }
      [] [] rfl
  · exact reconcile_idempotent_cases.2 ["g"] "c2"
      { update := true, force := false, dontPrune := false, directory := ["d"] }
      { fs := { files := [(["d", "g"], "old")], dirs := [["d"]] },
        filesWritten := [], dirsWritten := [] }
      [Util.Answer.yes] [] rfl rfl (by decide)

/-! ## Claim C4 -/

/-- The arithmetic of lodash index-wise array merging: shared indices
are merged element-wise, surviving template elements and overlay
overhang are both retained. -/
theorem mergeArr_eq (ts : List Json) : ∀ os : List Json,
    mergeArr ts os = (List.zipWith merge ts os ++ ts.drop os.length) ++ os.drop ts.length := by
  induction ts with
  | nil => intro os; cases os <;> simp [mergeArr]
  | cons t ts ih =>
    intro os
    cases os with
    | nil => simp [mergeArr]
    | cons o os => simp [mergeArr, ih]

/-- C4 counterexample: lodash merge does NOT replace arrays wholesale;
it merges them index-by-index, so a template array longer than the
overlay array keeps its tail.  Merging template tags ["x","y"] with
overlay tags ["z"] yields ["z","y"], not the overlay array ["z"]. -/
theorem merge_array_not_wholesale :
    merge (Json.arr [Json.str "x", Json.str "y"]) (Json.arr [Json.str "z"]) =
      Json.arr [Json.str "z", Json.str "y"] ∧
    mergeSpecWording (Json.arr [Json.str "x", Json.str "y"]) (Json.arr [Json.str "z"]) =
      Json.arr [Json.str "z"] ∧
    merge (Json.arr [Json.str "x", Json.str "y"]) (Json.arr [Json.str "z"]) ≠
      Json.arr [Json.str "z"] := by
  refine ⟨?_, ?_, ?_⟩
  · simp [merge, mergeArr]
  · simp [mergeSpecWording]
  · intro hx
    simp [merge, mergeArr] at hx

/-- C4 amended: overlay keys override template keys at every nesting
level, and the spec example indeed yields
{spec:{replicas:3,tags:["y","z"]}} — but an overlay array does NOT
replace the template array wholesale: the two arrays are merged
index-by-index (overlay element wins per index; template elements
beyond the overlay length are retained), which coincides with
wholesale replacement only when the overlay array is at least as long
as the template array (as in the example).  Scalar overlay values
always override. -/
theorem merge_overlay_semantics :
    merge (Json.obj [("spec", Json.obj [("replicas", Json.num 1),
        ("tags", Json.arr [Json.str "x"])])])
      (Json.obj [("spec", Json.obj [("replicas", Json.num 3),
        ("tags", Json.arr [Json.str "y", Json.str "z"])])]) =
    Json.obj [("spec", Json.obj [("replicas", Json.num 3),
        ("tags", Json.arr [Json.str "y", Json.str "z"])])] ∧
    (∀ ts os : List Json, merge (Json.arr ts) (Json.arr os) =
      Json.arr ((List.zipWith merge ts os ++ ts.drop os.length) ++ os.drop ts.length)) ∧
    (∀ (t : Json) (n : Int), merge t (Json.num n) = Json.num n) ∧
    (∀ (t : Json) (s : String), merge t (Json.str s) = Json.str s) := by
  refine ⟨?_, ?_, ?_, ?_⟩
  · simp [merge, mergeObj, mergeArr]
  · intro ts os
    simp [merge, mergeArr_eq]
  · intro t n
    cases t <;> simp [merge]
  · intro t s
    cases t <;> simp [merge]


/-- Unfolding equation for `DNA.confirmWriteFile` (stated without the
let bindings of the source, for use in proofs). -/
theorem DNA.confirmWriteFile_unfold (ext : DNA.Extern) (ctx : DNA.Ctx)
    (filePath : FsPath) (args : DNA.Args) (fs : FS) (oracle : List Util.Answer) :
    DNA.confirmWriteFile ext ctx filePath args fs oracle =
      match DNA.readTemplate ext ctx.dirname args fs with
      | .error me => (.err me.1, fs, me.2, oracle)
      | .ok te =>
        if ctx.overwrite then
          DNA.finalStep args te.1 (ctx.cwd ++ filePath) true fs
            (te.2 ++ [DNA.Ev.fsRead (ctx.cwd ++ filePath)]) oracle
        else if args.output != some "-" &&
            fs.readFile (ctx.cwd ++ filePath) == DNA.jsOr args.content te.1 then
          (.ok (some false), fs, te.2 ++ [DNA.Ev.fsRead (ctx.cwd ++ filePath)], oracle)
        else if DNA.jsTruthy (fs.readFile (ctx.cwd ++ filePath)) && ctx.prompts &&
            !ctx.silence then
          match oracle with
          | [] =>
            (.blocked, fs,
              te.2 ++ [DNA.Ev.fsRead (ctx.cwd ++ filePath)] ++
                [DNA.Ev.prompt (ctx.cwd ++ filePath)], [])
          | Util.Answer.yes :: rest =>
            DNA.finalStep args te.1 (ctx.cwd ++ filePath) true fs
              (te.2 ++ [DNA.Ev.fsRead (ctx.cwd ++ filePath)] ++
                [DNA.Ev.prompt (ctx.cwd ++ filePath)]) rest
          | Util.Answer.no :: rest =>
            DNA.finalStep args te.1 (ctx.cwd ++ filePath) false fs
              (te.2 ++ [DNA.Ev.fsRead (ctx.cwd ++ filePath)] ++
                [DNA.Ev.prompt (ctx.cwd ++ filePath)]) rest
          | Util.Answer.showDiff :: rest =>
            match DNA.confirmRec ext ctx filePath
                { content := args.content, templatePath := args.templatePath,
                  output := none, properties := args.properties } fs rest with
            | (DNA.Res.blocked, fs2, ev2, rest2) =>
              (.blocked, fs2,
                te.2 ++ [DNA.Ev.fsRead (ctx.cwd ++ filePath)] ++
                    [DNA.Ev.prompt (ctx.cwd ++ filePath)] ++
                    [DNA.Ev.fsRead (ctx.cwd ++ filePath),
                      DNA.Ev.stdout (ext.renderDiff
                        ((fs.readFile (ctx.cwd ++ filePath)).getD "")
                        ((DNA.jsOr args.content te.1).getD ""))] ++ ev2, rest2)
            | (DNA.Res.err m, fs2, ev2, rest2) =>
              (.err m, fs2,
                te.2 ++ [DNA.Ev.fsRead (ctx.cwd ++ filePath)] ++
                    [DNA.Ev.prompt (ctx.cwd ++ filePath)] ++
                    [DNA.Ev.fsRead (ctx.cwd ++ filePath),
                      DNA.Ev.stdout (ext.renderDiff
                        ((fs.readFile (ctx.cwd ++ filePath)).getD "")
                        ((DNA.jsOr args.content te.1).getD ""))] ++ ev2, rest2)
            | (DNA.Res.ok _, fs2, ev2, rest2) =>
              DNA.finalStep args te.1 (ctx.cwd ++ filePath) false fs2
                (te.2 ++ [DNA.Ev.fsRead (ctx.cwd ++ filePath)] ++
                    [DNA.Ev.prompt (ctx.cwd ++ filePath)] ++
                    [DNA.Ev.fsRead (ctx.cwd ++ filePath),
                      DNA.Ev.stdout (ext.renderDiff
                        ((fs.readFile (ctx.cwd ++ filePath)).getD "")
                        ((DNA.jsOr args.content te.1).getD ""))] ++ ev2) rest2
        else
          DNA.finalStep args te.1 (ctx.cwd ++ filePath)
            (!DNA.jsTruthy (fs.readFile (ctx.cwd ++ filePath))) fs
            (te.2 ++ [DNA.Ev.fsRead (ctx.cwd ++ filePath)]) oracle := by
  cases oracle with
  | nil => rfl
  | cons a rest => cases a <;> rfl

/-! ## Claim C7 -/

/-- C7 counterexample: under the dryRun/stdout policy the bytes
emitted are the desired content plus a trailing newline
(`process.stdout.write((content || template) + '\n')`), while the
bytes a writing policy puts on disk are the content alone — they are
not byte-identical. -/
theorem dry_run_emits_extra_newline :
    (DNA.confirmWriteFile ⟨fun _ => Json.null, fun _ => "", fun _ _ => ""⟩
        ⟨["w"], ["lib"], false, true, true⟩ ["out"]
        { content := some "hello", templatePath := none, output := some "-",
          properties := none }
        ⟨[], [["w"]]⟩ []).2.2.1 =
      [DNA.Ev.fsRead ["w", "out"], DNA.Ev.stdout "hello\n"] ∧
    (DNA.confirmWriteFile ⟨fun _ => Json.null, fun _ => "", fun _ _ => ""⟩
        ⟨["w"], ["lib"], true, true, false⟩ ["out"]
        { content := some "hello", templatePath := none, output := none,
          properties := none }
        ⟨[], [["w"]]⟩ []).2.2.1 =
      [DNA.Ev.fsRead ["w", "out"], DNA.Ev.fsWrite ["w", "out"] "hello"] ∧
    "hello\n" ≠ "hello" := by
  rw [DNA.confirmWriteFile_unfold, DNA.confirmWriteFile_unfold]
  decide

/-- C7 amended: with the dryRun/stdout-only policy active (output
routed to '-', run silenced), reconciliation always emits the desired
content FOLLOWED BY ONE EXTRA NEWLINE to stdout, returns the write
decision, never prompts, never touches the filesystem; a writing
policy would write exactly the content bytes, so the emitted bytes are
the written bytes plus '\n' (never identical). -/
theorem dry_run_behavior (ext : DNA.Extern) (ctx : DNA.Ctx) (filePath : FsPath)
    (c : String) (props : Option Json) (fs : FS) (oracle : List Util.Answer)
    (hsil : ctx.silence = true) (hc : c ≠ "") :
    DNA.confirmWriteFile ext ctx filePath
        { content := some c, templatePath := none, output := some "-", properties := props }
        fs oracle =
      (DNA.Res.ok (some true), fs,
        [DNA.Ev.fsRead (ctx.cwd ++ filePath), DNA.Ev.stdout (c ++ "\n")], oracle) ∧
    DNA.confirmWriteFile ext { ctx with overwrite := true } filePath
        { content := some c, templatePath := none, output := none, properties := props }
        fs oracle =
      (DNA.Res.ok (some true), fs.writeFile (ctx.cwd ++ filePath) c,
        [DNA.Ev.fsRead (ctx.cwd ++ filePath), DNA.Ev.fsWrite (ctx.cwd ++ filePath) c],
        oracle) ∧
    c ++ "\n" ≠ c := by
  have hce : c.isEmpty = false := by
    cases hx : c.isEmpty
    · rfl
    · exact absurd ((String.isEmpty_iff c).mp hx) hc
  refine ⟨?_, ?_, ?_⟩
  · rw [DNA.confirmWriteFile_unfold]
    cases ho : ctx.overwrite <;>
      simp [DNA.readTemplate, DNA.finalStep, DNA.jsOr, DNA.jsTruthy, hsil, hce, ho]
  · rw [DNA.confirmWriteFile_unfold]
    simp [DNA.readTemplate, DNA.finalStep, DNA.jsOr, DNA.jsTruthy, hce]
  · intro hx
    have hlen := congrArg String.length hx
    rw [String.length_append] at hlen
    have h1 : ("\n" : String).length = 1 := rfl
    rw [h1] at hlen
    omega

/-- Witness for C7 amended: dry run on concrete input emits
"abc\n". -/
theorem dry_run_behavior_witness :
    DNA.confirmWriteFile ⟨fun _ => Json.null, fun _ => "", fun _ _ => ""⟩
        ⟨["w"], ["lib"], false, true, true⟩ ["out"]
        { content := some "abc", templatePath := none, output := some "-",
          properties := none }
        ⟨[], [["w"]]⟩ [] =
      (DNA.Res.ok (some true), ⟨[], [["w"]]⟩,
        [DNA.Ev.fsRead ["w", "out"], DNA.Ev.stdout ("abc" ++ "\n")], []) :=
  (dry_run_behavior ⟨fun _ => Json.null, fun _ => "", fun _ _ => ""⟩
    ⟨["w"], ["lib"], false, true, true⟩ ["out"] "abc" none ⟨[], [["w"]]⟩ []
    rfl (by decide)).1

/-! ## Claim C8 -/

/-- C8 counterexample: when both literal content and a template are
supplied, the template file IS read from disk before the error is
thrown (`template = (await readFile(fullTemplatePath))...` at line 305
precedes the check at line 313) — the claim says the call fails before
any filesystem interaction, including the template read. -/
theorem dual_source_reads_template_first :
    DNA.Ev.fsRead ["lib", "tpl"] ∈
      (DNA.confirmWriteFile ⟨fun _ => Json.null, fun _ => "", fun _ _ => ""⟩
        ⟨["w"], ["lib"], false, true, false⟩ ["out"]
        { content := some "x", templatePath := some ["tpl"], output := none,
          properties := none }
        ⟨[(["lib", "tpl"], "T")], [["w"]]⟩ []).2.2.1 ∧
    (DNA.confirmWriteFile ⟨fun _ => Json.null, fun _ => "", fun _ _ => ""⟩
        ⟨["w"], ["lib"], false, true, false⟩ ["out"]
        { content := some "x", templatePath := some ["tpl"], output := none,
          properties := none }
        ⟨[(["lib", "tpl"], "T")], [["w"]]⟩ []).1 =
      DNA.Res.err "Provide only one of content, templatePath" := by
  rw [DNA.confirmWriteFile_unfold]
  decide

/-- C8 amended: when both literal content and a template path are
supplied, `confirmWriteFile` throws the dual-source error AFTER
reading (and, for yaml, merging) the template, but BEFORE any read or
write of the target path, any prompt, and any ledger/filesystem
change: the event trace is exactly the one template read, the
filesystem is returned unchanged, and the prompt oracle is
untouched. -/
theorem dual_source_fails_after_template_read (ext : DNA.Extern) (ctx : DNA.Ctx)
    (filePath tp : FsPath) (c raw : String) (outp : Option String) (props : Option Json)
    (fs : FS) (oracle : List Util.Answer)
    (hc : c ≠ "")
    (hraw : fs.readFile (ctx.dirname ++ tp) = some raw) :
    DNA.confirmWriteFile ext ctx filePath
        { content := some c, templatePath := some tp, output := outp, properties := props }
        fs oracle =
      (DNA.Res.err "Provide only one of content, templatePath", fs,
        [DNA.Ev.fsRead (ctx.dirname ++ tp)], oracle) := by
  have hce : c.isEmpty = false := by
    cases hx : c.isEmpty
    · rfl
    · exact absurd ((String.isEmpty_iff c).mp hx) hc
  rw [DNA.confirmWriteFile_unfold]
  simp [DNA.readTemplate, hraw, DNA.jsTruthy, hce]

/-- Witness for C8 amended: concrete dual-source call reads the
template and throws. -/
theorem dual_source_fails_after_template_read_witness :
    DNA.confirmWriteFile ⟨fun _ => Json.null, fun _ => "", fun _ _ => ""⟩
        ⟨["w"], ["lib"], false, true, false⟩ ["out"]
        { content := some "x", templatePath := some ["tpl"], output := none,
          properties := none }
        ⟨[(["lib", "tpl"], "T")], [["w"]]⟩ [] =
      (DNA.Res.err "Provide only one of content, templatePath",
        ⟨[(["lib", "tpl"], "T")], [["w"]]⟩,
        [DNA.Ev.fsRead ["lib", "tpl"]], []) :=
  dual_source_fails_after_template_read
    ⟨fun _ => Json.null, fun _ => "", fun _ _ => ""⟩
    ⟨["w"], ["lib"], false, true, false⟩ ["out"] ["tpl"] "x" "T" none none
    ⟨[(["lib", "tpl"], "T")], [["w"]]⟩ [] (by decide) (by decide)
